import Mathlib

/-!
# ARION multi-signal risk fusion pipeline: a shallow embedding

This file embeds the core data model and operations of the ARION
repository (agents `risk_agent.py`, `sentiment_agent.py`,
`forecast_agent.py`, `correlation_agent.py`, `advisory_agent.py` and the
orchestrating `core/engine.py`) as executable Lean definitions, and proves
or refutes the specification claims about them.

Modelling conventions:
* Python floats are modelled as `ℚ`.  `np.mean` of a guarded non-empty
  list is `sum / length`; `np.mean([])`, which is NaN in numpy, is
  modelled as `Option.none` at the one place the code can produce it
  (advisory confidence).
* Real-valued library primitives that live outside the analysis logic
  (standard deviation times sqrt(252), Pearson correlation, the fitted
  forecasting model, the VADER polarity scorer) are passed in as function
  parameters: the source treats them as black-box numeric suppliers, and
  every theorem below quantifies over them.
* A pandas DataFrame is modelled by its row count, its optional
  `Returns` column (entries `none` model NaN cells) and the last value of
  its optional `Drawdown` column.  Alert `message` strings keep only the
  static text (no float interpolation); no claim mentions message text.
* Python dicts that the code iterates in insertion order are modelled as
  association lists.
-/

/-- Last `n` elements of a list (`pandas.Series.tail(n)`). -/
def tailN (n : ℕ) (l : List ℚ) : List ℚ := l.drop (l.length - n)

/-- Arithmetic mean, used only where the source guards non-emptiness. -/
def listMean (l : List ℚ) : ℚ := l.sum / l.length

/-- Maximum of a list of rationals (`max()` in Python, guarded non-empty). -/
def listMax : List ℚ → ℚ
  | [] => 0
  | h :: t => t.foldl max h

/-- An alert dict as produced by the agents.  `source` is absent (`none`)
until the engine stamps it while merging. -/
structure Alert where
  symbol : Option String
  atype : String
  severity : String
  message : String
  value : ℚ
  source : Option String
deriving DecidableEq

/-- A per-symbol price table: row count, the `Returns` column when present
(with `none` entries for NaN cells), and the final value of the `Drawdown`
column when that column is present and non-empty. -/
structure DataFrame where
  nrows : ℕ
  returnsCol : Option (List (Option ℚ))
  drawdownLast : Option ℚ
deriving DecidableEq

/-- `df['Returns'].dropna()`: the defined entries of the Returns column. -/
def DataFrame.validReturns (df : DataFrame) : List ℚ :=
  (df.returnsCol.getD []).filterMap id

/-- Result dict of `RiskAgent.analyze`. -/
structure RiskResult where
  overall_risk_score : ℚ
  max_risk_score : ℚ
  risk_level : String
  individual_scores : List (String × ℚ)
  volatility : List (String × ℚ)
  drawdowns : List (String × ℚ)
  alerts : List Alert
  confidence : ℚ
deriving DecidableEq

/-- `RiskAgent._get_risk_level`. -/
def RiskAgent.getRiskLevel (score : ℚ) : String :=
  if score < 20 then "LOW"
  else if score < 50 then "MEDIUM"
  else if score < 80 then "HIGH"
  else "CRITICAL"

/-- `RiskAgent._empty_result`. -/
def RiskAgent.emptyResult : RiskResult :=
  { overall_risk_score := 0
    max_risk_score := 0
    risk_level := "UNKNOWN"
    individual_scores := []
    volatility := []
    drawdowns := []
    alerts := []
    confidence := 0 }

/-- `RiskAgent._calculate_confidence`: per symbol, full credit for at
least 60 rows, half credit for at least 20, else none, averaged. -/
def RiskAgent.calculateConfidence (data : List (String × DataFrame)) : ℚ :=
  if data.length = 0 then 0
  else
    (data.map (fun p =>
      if p.2.nrows ≥ 60 then (1 : ℚ)
      else if p.2.nrows ≥ 20 then 1/2
      else 0)).sum / data.length

/-- Loop accumulator of `RiskAgent.analyze`: the `risk_scores`,
`volatility_data`, `drawdown_data` dicts and the `alerts` list. -/
structure RiskAcc where
  riskScores : List (String × ℚ)
  volatility : List (String × ℚ)
  drawdowns : List (String × ℚ)
  alerts : List Alert
deriving DecidableEq

/-- One iteration of the per-symbol loop of `RiskAgent.analyze`.
`volFn` models `lambda rs: np.std(rs, ddof=1) * sqrt(252)`, the
annualized standard deviation, a real-valued black box. -/
def RiskAgent.processSymbol (volFn : List ℚ → ℚ) (volThr ddThr : ℚ)
    (acc : RiskAcc) (entry : String × DataFrame) : RiskAcc :=
  let symbol := entry.1
  let df := entry.2
  if df.nrows = 0 ∨ df.returnsCol = none then acc
  else
    let recentReturns := tailN 20 df.validReturns
    if recentReturns.length < 5 then acc
    else
      let currentVol := volFn recentReturns
      let currentDd := df.drawdownLast.getD 0
      let volScore := min 100 (currentVol / volThr * 50)
      let ddScore := min 100 (|currentDd / ddThr| * 50)
      let riskScore := (volScore + ddScore) / 2
      let volAlerts : List Alert :=
        if currentVol > volThr then
          [{ symbol := some symbol
             atype := "HIGH_VOLATILITY"
             severity := if currentVol > volThr * (3/2) then "HIGH" else "MEDIUM"
             message := "High volatility detected"
             value := currentVol
             source := none }]
        else []
      let ddAlerts : List Alert :=
        if currentDd < ddThr then
          [{ symbol := some symbol
             atype := "SIGNIFICANT_DRAWDOWN"
             severity := if currentDd < ddThr * (3/2) then "HIGH" else "MEDIUM"
             message := "Significant drawdown"
             value := currentDd
             source := none }]
        else []
      let col := df.returnsCol.getD []
      let spikeAlerts : List Alert :=
        if df.nrows > 60 then
          let historicalVol := volFn ((col.take (col.length - 20)).filterMap id)
          if currentVol > historicalVol * (3/2) then
            [{ symbol := some symbol
               atype := "VOLATILITY_SPIKE"
               severity := "MEDIUM"
               message := "Volatility spike detected"
               value := currentVol / historicalVol
               source := none }]
          else []
        else []
      { riskScores := acc.riskScores ++ [(symbol, riskScore)]
        volatility := acc.volatility ++ [(symbol, currentVol)]
        drawdowns := acc.drawdowns ++ [(symbol, currentDd)]
        alerts := acc.alerts ++ volAlerts ++ ddAlerts ++ spikeAlerts }

/-- `RiskAgent.analyze`. -/
def RiskAgent.analyze (volFn : List ℚ → ℚ) (volThr ddThr : ℚ)
    (data : List (String × DataFrame)) : RiskResult :=
  if data.isEmpty then RiskAgent.emptyResult
  else
    let acc := data.foldl (RiskAgent.processSymbol volFn volThr ddThr) ⟨[], [], [], []⟩
    let scores := acc.riskScores.map Prod.snd
    let avgRiskScore := if scores.isEmpty then 0 else listMean scores
    let maxRiskScore := if scores.isEmpty then 0 else listMax scores
    { overall_risk_score := avgRiskScore
      max_risk_score := maxRiskScore
      risk_level := RiskAgent.getRiskLevel avgRiskScore
      individual_scores := acc.riskScores
      volatility := acc.volatility
      drawdowns := acc.drawdowns
      alerts := acc.alerts
      confidence := RiskAgent.calculateConfidence data }

/-- `ARIONEngine.get_risk_level`, as a function of the unified score. -/
def ARIONEngine.getRiskLevel (score : ℚ) : String :=
  if score < 20 then "LOW"
  else if score < 50 then "MEDIUM"
  else if score < 80 then "HIGH"
  else "CRITICAL"

/-- The risk-level step function as the specification words it: CRITICAL
from 80 up, HIGH from 50 up, MEDIUM from 20 up, LOW below 20. -/
def riskLevelSpec (score : ℚ) : String :=
  if 80 ≤ score then "CRITICAL"
  else if 50 ≤ score then "HIGH"
  else if 20 ≤ score then "MEDIUM"
  else "LOW"

/-- A news article; only the title is read by the sentiment agent. -/
structure Article where
  title : String
deriving DecidableEq

/-- Result dict of `SentimentAgent.analyze`. -/
structure SentimentResult where
  overall_score : ℚ
  overall_label : String
  individual_scores : List (String × ℚ)
  individual_labels : List (String × String)
  article_counts : List (String × ℕ)
  positive_count : ℕ
  negative_count : ℕ
  neutral_count : ℕ
  alerts : List Alert
  confidence : ℚ
deriving DecidableEq

/-- `SentimentAgent._get_sentiment_label`. -/
def SentimentAgent.getSentimentLabel (score : ℚ) : String :=
  if score > 1/5 then "POSITIVE"
  else if score < -(1/5) then "NEGATIVE"
  else "NEUTRAL"

/-- `SentimentAgent._empty_result`. -/
def SentimentAgent.emptyResult : SentimentResult :=
  { overall_score := 0
    overall_label := "NEUTRAL"
    individual_scores := []
    individual_labels := []
    article_counts := []
    positive_count := 0
    negative_count := 0
    neutral_count := 0
    alerts := []
    confidence := 0 }

/-- Loop accumulator of `SentimentAgent.analyze`: the `sentiment_scores`,
`sentiment_labels` and `article_counts` dicts. -/
structure SentAcc where
  scores : List (String × ℚ)
  labels : List (String × String)
  counts : List (String × ℕ)
deriving DecidableEq

/-- One iteration of the per-symbol loop of `SentimentAgent.analyze`.
`polarity` models `SentimentIntensityAnalyzer().polarity_scores(title)['compound']`,
the external deterministic lexicon scorer. -/
def SentimentAgent.processSymbol (polarity : String → ℚ)
    (acc : SentAcc) (entry : String × List Article) : SentAcc :=
  let symbol := entry.1
  let articles := entry.2
  if articles.isEmpty then acc
  else
    let scores := articles.filterMap
      (fun a => if a.title = "" then none else some (polarity a.title))
    if scores.isEmpty then
      { scores := acc.scores ++ [(symbol, 0)]
        labels := acc.labels ++ [(symbol, "NEUTRAL")]
        counts := acc.counts ++ [(symbol, 0)] }
    else
      let avgScore := listMean scores
      { scores := acc.scores ++ [(symbol, avgScore)]
        labels := acc.labels ++ [(symbol, SentimentAgent.getSentimentLabel avgScore)]
        counts := acc.counts ++ [(symbol, scores.length)] }

/-- `SentimentAgent._calculate_confidence`. -/
def SentimentAgent.calculateConfidence (articleCounts : List (String × ℕ)) : ℚ :=
  if articleCounts.isEmpty then 0
  else min 1 (listMean (articleCounts.map (fun p => (p.2 : ℚ))) / 10)

/-- `SentimentAgent.analyze`. -/
def SentimentAgent.analyze (polarity : String → ℚ)
    (newsData : List (String × List Article)) : SentimentResult :=
  if newsData.isEmpty then SentimentAgent.emptyResult
  else
    let acc := newsData.foldl (SentimentAgent.processSymbol polarity) ⟨[], [], []⟩
    let overallScore := if acc.scores.isEmpty then 0 else listMean (acc.scores.map Prod.snd)
    let overallLabel := if acc.scores.isEmpty then "NEUTRAL"
      else SentimentAgent.getSentimentLabel overallScore
    let labelVals := acc.labels.map Prod.snd
    let positiveCount := if acc.scores.isEmpty then 0
      else (labelVals.filter (fun l => l = "POSITIVE")).length
    let negativeCount := if acc.scores.isEmpty then 0
      else (labelVals.filter (fun l => l = "NEGATIVE")).length
    let neutralCount := if acc.scores.isEmpty then 0
      else (labelVals.filter (fun l => l = "NEUTRAL")).length
    let alerts := acc.scores.foldl (fun al p =>
      if p.2 < -(1/2) then
        al ++ [{ symbol := some p.1
                 atype := "NEGATIVE_SENTIMENT"
                 severity := if p.2 < -(7/10) then "HIGH" else "MEDIUM"
                 message := "Strong negative sentiment detected"
                 value := p.2
                 source := none }]
      else if p.2 > 1/2 then
        al ++ [{ symbol := some p.1
                 atype := "POSITIVE_SENTIMENT"
                 severity := "LOW"
                 message := "Strong positive sentiment detected"
                 value := p.2
                 source := none }]
      else al) []
    { overall_score := overallScore
      overall_label := overallLabel
      individual_scores := acc.scores
      individual_labels := acc.labels
      article_counts := acc.counts
      positive_count := positiveCount
      negative_count := negativeCount
      neutral_count := neutralCount
      alerts := alerts
      confidence := SentimentAgent.calculateConfidence acc.counts }

/-- One per-symbol forecast entry of `ForecastAgent.analyze`. -/
structure SymbolForecast where
  predicted_return : ℚ
  predicted_direction : String
  confidence : ℚ
  trend : String
deriving DecidableEq

/-- Result dict of `ForecastAgent.analyze`. -/
structure ForecastResult where
  forecasts : List (String × SymbolForecast)
  market_sentiment : String
  average_prediction : ℚ
  confidence : ℚ
deriving DecidableEq

/-- `ForecastAgent._empty_result`. -/
def ForecastAgent.emptyResult : ForecastResult :=
  { forecasts := []
    market_sentiment := "UNKNOWN"
    average_prediction := 0
    confidence := 0 }

/-- One iteration of the per-symbol loop of `ForecastAgent.analyze`.
`step` models `_prepare_features` followed by `_train_and_predict`:
`Except.error` is a raised exception inside the try block, `Except.ok none`
is the empty-feature-table `continue`, and `Except.ok (some (p, c, t))`
yields prediction, direction-accuracy confidence and trend. -/
def ForecastAgent.processSymbol
    (step : DataFrame → Except String (Option (ℚ × ℚ × String)))
    (acc : List (String × SymbolForecast)) (entry : String × DataFrame) :
    List (String × SymbolForecast) :=
  let symbol := entry.1
  let df := entry.2
  if df.nrows = 0 ∨ df.nrows < 30 then acc
  else
    match step df with
    | Except.error _ => acc
    | Except.ok none => acc
    | Except.ok (some (prediction, confidence, trend)) =>
        acc ++ [(symbol,
          { predicted_return := prediction
            predicted_direction :=
              if prediction > 0 then "UP" else if prediction < 0 then "DOWN" else "FLAT"
            confidence := confidence
            trend := trend })]

/-- `ForecastAgent.analyze`. -/
def ForecastAgent.analyze
    (step : DataFrame → Except String (Option (ℚ × ℚ × String)))
    (data : List (String × DataFrame)) : ForecastResult :=
  if data.isEmpty then ForecastAgent.emptyResult
  else
    let forecasts := data.foldl (ForecastAgent.processSymbol step) []
    let avgPrediction := if forecasts.isEmpty then 0
      else listMean (forecasts.map (fun p => p.2.predicted_return))
    let bullishCount := (forecasts.filter (fun p => p.2.predicted_direction = "UP")).length
    let bearishCount := (forecasts.filter (fun p => p.2.predicted_direction = "DOWN")).length
    let marketSentiment :=
      if forecasts.isEmpty then "UNKNOWN"
      else if bullishCount > bearishCount then "BULLISH"
      else if bearishCount > bullishCount then "BEARISH"
      else "NEUTRAL"
    let confs := forecasts.map (fun p => p.2.confidence)
    { forecasts := forecasts
      market_sentiment := marketSentiment
      average_prediction := avgPrediction
      confidence := if confs.isEmpty then 0 else listMean confs }

/-- Result dict of `CorrelationAgent.analyze` (the correlation-matrix dict
itself is omitted; no claim mentions it). -/
structure CorrelationResult where
  average_correlation : ℚ
  diversification_score : ℚ
  high_correlations : List (String × ℚ × String)
  correlation_increases : List (String × ℚ × ℚ)
  risk_level : String
  alerts : List Alert
  confidence : ℚ
deriving DecidableEq

/-- `CorrelationAgent._empty_result`. -/
def CorrelationAgent.emptyResult : CorrelationResult :=
  { average_correlation := 0
    diversification_score := 0
    high_correlations := []
    correlation_increases := []
    risk_level := "UNKNOWN"
    alerts := []
    confidence := 0 }

/-- The `returns_dict` built by `CorrelationAgent.analyze`: symbols whose
frame has a non-empty `Returns` column. -/
def CorrelationAgent.returnsDict (data : List (String × DataFrame)) :
    List (String × List (Option ℚ)) :=
  data.filterMap (fun p =>
    match p.2.returnsCol with
    | some col => if col.isEmpty then none else some (p.1, col)
    | none => none)

/-- `pd.DataFrame(returns_dict).dropna()`: rows at which every column has a
defined value (the date index is modelled by row position). -/
def alignedRows (cols : List (List (Option ℚ))) : List (List ℚ) :=
  let n := (cols.map List.length).foldl max 0
  (List.range n).filterMap (fun i =>
    let row := cols.map (fun c => c.getD i none)
    if row.all Option.isSome then some (row.filterMap id) else none)

/-- Index pairs `i < j` over `k` columns: the upper triangle walked by the
doubly nested loop of `CorrelationAgent.analyze`. -/
def pairIdx (k : ℕ) : List (ℕ × ℕ) :=
  (List.range k).flatMap (fun i => ((List.range k).drop (i+1)).map (fun j => (i, j)))

/-- The guard conjunction under which `CorrelationAgent.analyze` reaches
its full computation path (no early `_empty_result` return). -/
def CorrelationAgent.fullPath (data : List (String × DataFrame)) : Prop :=
  2 ≤ data.length ∧ 2 ≤ (CorrelationAgent.returnsDict data).length ∧
  (alignedRows ((CorrelationAgent.returnsDict data).map Prod.snd)).length ≠ 0 ∧
  20 ≤ (alignedRows ((CorrelationAgent.returnsDict data).map Prod.snd)).length

instance (data : List (String × DataFrame)) :
    Decidable (CorrelationAgent.fullPath data) := by
  unfold CorrelationAgent.fullPath; infer_instance

/-- `CorrelationAgent.analyze`.  `pearson` models `pandas.DataFrame.corr`
restricted to one column pair, a real-valued black box. -/
def CorrelationAgent.analyze (pearson : List ℚ → List ℚ → ℚ) (thr : ℚ)
    (data : List (String × DataFrame)) : CorrelationResult :=
  if data.length < 2 then CorrelationAgent.emptyResult
  else
    let rdict := CorrelationAgent.returnsDict data
    if rdict.length < 2 then CorrelationAgent.emptyResult
    else
      let aligned := alignedRows (rdict.map Prod.snd)
      let n := aligned.length
      if n = 0 ∨ n < 20 then CorrelationAgent.emptyResult
      else
        let syms := rdict.map Prod.fst
        let col := fun (rows : List (List ℚ)) (j : ℕ) => rows.map (fun r => r.getD j 0)
        let recentWindow := min 20 (n / 3)
        let recentRows := aligned.drop (n - recentWindow)
        let histRows := aligned.take (n - recentWindow)
        let pairs := pairIdx syms.length
        let pairName := fun (i j : ℕ) => syms.getD i "" ++ "-" ++ syms.getD j ""
        let highCorrelations := pairs.filterMap (fun p =>
          let c := pearson (col aligned p.1) (col aligned p.2)
          if |c| > thr then
            some (pairName p.1 p.2, c, if c > 0 then "positive" else "negative")
          else none)
        let correlationIncreases := pairs.filterMap (fun p =>
          if n > 60 then
            let rc := pearson (col recentRows p.1) (col recentRows p.2)
            let hc := pearson (col histRows p.1) (col histRows p.2)
            if |rc| > |hc| + 1/5 then some (pairName p.1 p.2, rc, hc) else none
          else none)
        let avgCorrelation :=
          listMean (pairs.map (fun p => pearson (col aligned p.1) (col aligned p.2)))
        let diversificationScore := max 0 (100 * (1 - |avgCorrelation|))
        let alerts :=
          (if |avgCorrelation| > thr then
            [{ symbol := none
               atype := "HIGH_PORTFOLIO_CORRELATION"
               severity := "HIGH"
               message := "Portfolio shows high average correlation"
               value := avgCorrelation
               source := none }]
          else [])
          ++ correlationIncreases.map (fun q =>
            { symbol := none
              atype := "CORRELATION_INCREASE"
              severity := "MEDIUM"
              message := "Correlation increased"
              value := q.2.1 - q.2.2
              source := none })
        { average_correlation := avgCorrelation
          diversification_score := diversificationScore
          high_correlations := highCorrelations
          correlation_increases := correlationIncreases
          risk_level :=
            if |avgCorrelation| > 4/5 then "HIGH"
            else if |avgCorrelation| > 3/5 then "MEDIUM"
            else "LOW"
          alerts := alerts
          confidence :=
            if n ≥ 60 then 1
            else if n ≥ 30 then 4/5
            else if n ≥ 20 then 3/5
            else 2/5 }

/-- A priority-action dict produced by the advisory agent. -/
structure PriorityAction where
  action : String
  priority : String
  reason : String
  details : String
deriving DecidableEq

/-- A recommendation dict produced by the advisory agent. -/
structure Recommendation where
  category : String
  recommendation : String
  rationale : String
  urgency : String
deriving DecidableEq

/-- Result dict of `AdvisoryAgent.analyze`.  `confidence` is `none` when
the numpy mean underlying it is taken over an empty list (NaN); the
human-readable `summary` string is omitted (no claim mentions it). -/
structure AdvisoryResult where
  overall_recommendation : String
  priority_actions : List PriorityAction
  recommendations : List Recommendation
  risk_factors : List String
  confidence : Option ℚ
deriving DecidableEq

/-- `AdvisoryAgent._generate_overall_recommendation`.  The `corrRisk`
argument is accepted and ignored, exactly as in the source. -/
def AdvisoryAgent.generateOverallRecommendation
    (riskLevel marketSentiment sentimentLabel corrRisk : String) : String :=
  if riskLevel = "CRITICAL" then "REDUCE_RISK_IMMEDIATELY"
  else if riskLevel = "HIGH" ∧ (marketSentiment = "BEARISH" ∨ sentimentLabel = "NEGATIVE") then
    "DEFENSIVE_STANCE"
  else if riskLevel = "HIGH" then "MONITOR_CLOSELY"
  else if riskLevel = "MEDIUM" ∧ marketSentiment = "BEARISH" ∧ sentimentLabel = "NEGATIVE" then
    "CAUTIOUS_APPROACH"
  else if riskLevel = "LOW" ∧ marketSentiment = "BULLISH" ∧ sentimentLabel = "POSITIVE" then
    "FAVORABLE_CONDITIONS"
  else "MAINTAIN_CURRENT_STRATEGY"

/-- Priority rank used to sort `priority_actions`
(CRITICAL 0, HIGH 1, MEDIUM 2, LOW 3). -/
def priorityRank (p : String) : ℕ :=
  if p = "CRITICAL" then 0
  else if p = "HIGH" then 1
  else if p = "MEDIUM" then 2
  else 3

/-- `AdvisoryAgent.analyze`: a pure function of the four prior results. -/
def AdvisoryAgent.analyze (risk : RiskResult) (forecast : ForecastResult)
    (sentiment : SentimentResult) (corr : CorrelationResult) : AdvisoryResult :=
  let riskLevel := risk.risk_level
  let marketSentiment := forecast.market_sentiment
  let sentimentLabel := sentiment.overall_label
  let corrRisk := corr.risk_level
  let diversification := corr.diversification_score
  let highRisk := riskLevel = "HIGH" ∨ riskLevel = "CRITICAL"
  let rf1 : List String :=
    if highRisk then ["High portfolio volatility detected"] else []
  let pa1 : List PriorityAction :=
    if highRisk then
      [{ action := "REDUCE_EXPOSURE", priority := "HIGH"
         reason := "Risk level is elevated"
         details := "Consider reducing position sizes or taking profits on volatile assets" }]
    else []
  let rec1 : List Recommendation :=
    if highRisk then
      [{ category := "RISK_MANAGEMENT"
         recommendation := "Reduce overall portfolio exposure"
         rationale := "Current risk score indicates elevated volatility"
         urgency := "HIGH" }]
    else []
  let bothNegative := marketSentiment = "BEARISH" ∧ sentimentLabel = "NEGATIVE"
  let bothPositive := marketSentiment = "BULLISH" ∧ sentimentLabel = "POSITIVE"
  let rf2 : List String :=
    if bothNegative then ["Bearish forecast aligned with negative sentiment"]
    else if bothPositive then []
    else if marketSentiment ≠ sentimentLabel then
      ["Divergence between technical and sentiment signals"]
    else []
  let pa2 : List PriorityAction :=
    if bothNegative then
      [{ action := "DEFENSIVE_POSITIONING", priority := "HIGH"
         reason := "Both technical and sentiment indicators are negative"
         details := "Consider defensive sectors or hedging strategies" }]
    else []
  let rec2 : List Recommendation :=
    if bothNegative then
      [{ category := "MARKET_OUTLOOK"
         recommendation := "Adopt defensive positioning"
         rationale := "Technical forecast and news sentiment both indicate downward pressure"
         urgency := "HIGH" }]
    else if bothPositive then
      [{ category := "MARKET_OUTLOOK"
         recommendation := "Favorable conditions for growth positions"
         rationale := "Technical forecast and news sentiment both indicate upward momentum"
         urgency := "LOW" }]
    else if marketSentiment ≠ sentimentLabel then
      [{ category := "MARKET_OUTLOOK"
         recommendation := "Exercise caution - mixed signals detected"
         rationale := "Technical forecast diverges from sentiment"
         urgency := "MEDIUM" }]
    else []
  let rf3 : List String :=
    if corrRisk = "HIGH" then ["High correlation reduces diversification benefit"] else []
  let pa3 : List PriorityAction :=
    if corrRisk = "HIGH" then
      [{ action := "IMPROVE_DIVERSIFICATION", priority := "MEDIUM"
         reason := "Average correlation is elevated"
         details := "Add uncorrelated assets or reduce exposure to correlated positions" }]
    else []
  let rec3 : List Recommendation :=
    if corrRisk = "HIGH" then
      [{ category := "DIVERSIFICATION"
         recommendation := "Improve portfolio diversification"
         rationale := "Current diversification score is low"
         urgency := "MEDIUM" }]
    else if diversification > 70 then
      [{ category := "DIVERSIFICATION"
         recommendation := "Portfolio shows good diversification"
         rationale := "Diversification score indicates low correlation risk"
         urgency := "LOW" }]
    else []
  let highVolAlerts := risk.alerts.filter
    (fun a => a.atype = "HIGH_VOLATILITY" ∨ a.atype = "VOLATILITY_SPIKE")
  let negSentAlerts := sentiment.alerts.filter (fun a => a.atype = "NEGATIVE_SENTIMENT")
  let pa4 : List PriorityAction :=
    if ¬highVolAlerts.isEmpty ∧ ¬negSentAlerts.isEmpty then
      [{ action := "RISK_REVIEW", priority := "CRITICAL"
         reason := "Combination of high volatility and negative sentiment"
         details := "Immediate review of portfolio risk exposure recommended" }]
    else []
  let confidences : List ℚ :=
    [risk.confidence, forecast.confidence, sentiment.confidence, corr.confidence]
  let positiveConfidences := confidences.filter (fun c => c > 0)
  { overall_recommendation :=
      AdvisoryAgent.generateOverallRecommendation riskLevel marketSentiment sentimentLabel corrRisk
    priority_actions :=
      List.insertionSort (fun a b => priorityRank a.priority ≤ priorityRank b.priority)
        (pa1 ++ pa2 ++ pa3 ++ pa4)
    recommendations := rec1 ++ rec2 ++ rec3
    risk_factors := rf1 ++ rf2 ++ rf3
    confidence :=
      if positiveConfidences.isEmpty then none else some (listMean positiveConfidences) }

/-- The engine's `agent_results` dict after `run_all_agents`, in its
insertion order risk, forecast, sentiment, correlation, advisory. -/
structure AgentResults where
  risk : RiskResult
  forecast : ForecastResult
  sentiment : SentimentResult
  correlation : CorrelationResult
  advisory : AdvisoryResult
deriving DecidableEq

/-- `ARIONEngine.calculate_unified_risk_score`, as a function of the
collected agent results. -/
def ARIONEngine.calculateUnifiedRiskScore (ar : AgentResults) : ℚ :=
  let riskScore := ar.risk.overall_risk_score
  let forecastScore : ℚ :=
    if ar.forecast.market_sentiment = "BEARISH" then 70
    else if ar.forecast.market_sentiment = "BULLISH" then 30
    else 50
  let sentimentScore : ℚ :=
    if ar.sentiment.overall_label = "NEGATIVE" then 50 + |ar.sentiment.overall_score| * 50
    else if ar.sentiment.overall_label = "POSITIVE" then 50 - ar.sentiment.overall_score * 50
    else 50
  let correlationScore : ℚ :=
    if ar.correlation.risk_level = "HIGH" then 75
    else if ar.correlation.risk_level = "MEDIUM" then 50
    else 25
  min 100 (max 0
    (riskScore * 0.40 + forecastScore * 0.20 + sentimentScore * 0.20 + correlationScore * 0.20))

/-- Severity rank used by `ARIONEngine.get_all_alerts`
(`severity_order.get(..., 3)`): unknown severities take the last rank 3. -/
def severityRank (sev : String) : ℕ :=
  if sev = "CRITICAL" then 0
  else if sev = "HIGH" then 1
  else if sev = "MEDIUM" then 2
  else if sev = "LOW" then 3
  else 3

/-- The engine stamping an alert with its originating agent name. -/
def Alert.withSource (src : String) (a : Alert) : Alert := { a with source := some src }

/-- `ARIONEngine.get_all_alerts`: walk `agent_results` in insertion order,
skip the advisory entry, stamp each alert with its agent name (the
forecast result dict has no `alerts` key, so `.get('alerts', [])` yields
the empty list there) and sort by severity rank. -/
def ARIONEngine.getAllAlerts (ar : AgentResults) : List Alert :=
  let stamped :=
    ar.risk.alerts.map (Alert.withSource "risk")
    ++ ([] : List Alert)
    ++ ar.sentiment.alerts.map (Alert.withSource "sentiment")
    ++ ar.correlation.alerts.map (Alert.withSource "correlation")
  List.insertionSort (fun a b => severityRank a.severity ≤ severityRank b.severity) stamped

/-- `ARIONEngine.run_all_agents`, with each base agent's `analyze` passed
in as a fallible computation (`Except.error` models a raised exception).
The body sequences the five calls exactly as the source does, with no
handler around any of them. -/
def ARIONEngine.runAllAgents
    (riskAnalyze : List (String × DataFrame) → Except String RiskResult)
    (forecastAnalyze : List (String × DataFrame) → Except String ForecastResult)
    (sentimentAnalyze : List (String × List Article) → Except String SentimentResult)
    (correlationAnalyze : List (String × DataFrame) → Except String CorrelationResult)
    (marketData : List (String × DataFrame))
    (newsData : List (String × List Article)) : Except String AgentResults := do
  let riskResult ← riskAnalyze marketData
  let forecastResult ← forecastAnalyze marketData
  let sentimentResult ← sentimentAnalyze newsData
  let correlationResult ← correlationAnalyze marketData
  let advisoryResult := AdvisoryAgent.analyze riskResult forecastResult sentimentResult correlationResult
  pure
    { risk := riskResult
      forecast := forecastResult
      sentiment := sentimentResult
      correlation := correlationResult
      advisory := advisoryResult }

/-- `RiskAgent.analyze` with the `last_analysis` instance attribute
threaded explicitly: the empty-input path returns early without touching
the cache, the normal path stores the fresh result. -/
def RiskAgent.analyzeSt (volFn : List ℚ → ℚ) (volThr ddThr : ℚ)
    (st : Option RiskResult) (data : List (String × DataFrame)) :
    RiskResult × Option RiskResult :=
  let r := RiskAgent.analyze volFn volThr ddThr data
  if data.isEmpty then (r, st) else (r, some r)

/-- `SentimentAgent.analyze` with `last_analysis` threaded explicitly. -/
def SentimentAgent.analyzeSt (polarity : String → ℚ)
    (st : Option SentimentResult) (newsData : List (String × List Article)) :
    SentimentResult × Option SentimentResult :=
  let r := SentimentAgent.analyze polarity newsData
  if newsData.isEmpty then (r, st) else (r, some r)

/-- `ForecastAgent.analyze` with `last_analysis` threaded explicitly. -/
def ForecastAgent.analyzeSt
    (step : DataFrame → Except String (Option (ℚ × ℚ × String)))
    (st : Option ForecastResult) (data : List (String × DataFrame)) :
    ForecastResult × Option ForecastResult :=
  let r := ForecastAgent.analyze step data
  if data.isEmpty then (r, st) else (r, some r)

/-- `CorrelationAgent.analyze` with `last_analysis` threaded explicitly:
every early `_empty_result` return leaves the cache untouched, the full
path stores the fresh result. -/
def CorrelationAgent.analyzeSt (pearson : List ℚ → List ℚ → ℚ) (thr : ℚ)
    (st : Option CorrelationResult) (data : List (String × DataFrame)) :
    CorrelationResult × Option CorrelationResult :=
  let r := CorrelationAgent.analyze pearson thr data
  if CorrelationAgent.fullPath data then (r, some r) else (r, st)

/-- Forecast-to-risk-score mapping as the specification words it. -/
def forecastDerivedScore (marketSentiment : String) : ℚ :=
  if marketSentiment = "BEARISH" then 70
  else if marketSentiment = "BULLISH" then 30
  else 50

/-- Sentiment-to-risk-score mapping as the specification words it. -/
def sentimentDerivedScore (label : String) (raw : ℚ) : ℚ :=
  if label = "NEGATIVE" then 50 + |raw| * 50
  else if label = "POSITIVE" then 50 - raw * 50
  else 50

/-- Correlation-to-risk-score mapping as the specification words it. -/
def correlationDerivedScore (lvl : String) : ℚ :=
  if lvl = "HIGH" then 75
  else if lvl = "MEDIUM" then 50
  else 25

/-- The advisory decision table as the specification words it: an ordered
list of guard/outcome pairs, evaluated top to bottom. -/
def recommendationTable : List ((String × String × String × String → Bool) × String) :=
  [ (fun q => q.1 == "CRITICAL", "REDUCE_RISK_IMMEDIATELY"),
    (fun q => q.1 == "HIGH" && (q.2.1 == "BEARISH" || q.2.2.1 == "NEGATIVE"), "DEFENSIVE_STANCE"),
    (fun q => q.1 == "HIGH", "MONITOR_CLOSELY"),
    (fun q => q.1 == "MEDIUM" && q.2.1 == "BEARISH" && q.2.2.1 == "NEGATIVE", "CAUTIOUS_APPROACH"),
    (fun q => q.1 == "LOW" && q.2.1 == "BULLISH" && q.2.2.1 == "POSITIVE", "FAVORABLE_CONDITIONS") ]

/-- First-match-wins evaluation of a decision table. -/
def firstMatch {α : Type} (deflt : String) : List ((α → Bool) × String) → α → String
  | [], _ => deflt
  | (p, o) :: rest, x => if p x then o else firstMatch deflt rest x

/-- The condition under which `RiskAgent.analyze` skips a symbol: empty
frame, missing `Returns` column, or fewer than 5 valid recent returns. -/
def RiskAgent.skipped (e : String × DataFrame) : Prop :=
  e.2.nrows = 0 ∨ e.2.returnsCol = none ∨ (tailN 20 e.2.validReturns).length < 5

instance (e : String × DataFrame) : Decidable (RiskAgent.skipped e) := by
  unfold RiskAgent.skipped; infer_instance

/-- The single-symbol, three-valid-returns input of the C4 scenario. -/
def dataC4 : List (String × DataFrame) :=
  [("AAPL",
    { nrows := 4
      returnsCol := some [some (1/100), some (-(1/50)), some (3/200), none]
      drawdownLast := none })]

/-- The polarity oracle of the C5 scenario: three titles scoring 0.8, 0.6
and -0.1. -/
def polC5 : String → ℚ := fun t =>
  if t = "a" then 4/5 else if t = "b" then 3/5 else -(1/10)

/-- The three-symbol news input of the C5 scenario, one article each. -/
def newsC5 : List (String × List Article) :=
  [("S1", [{ title := "a" }]), ("S2", [{ title := "b" }]), ("S3", [{ title := "c" }])]

/-- A 40-row frame on which the faulting forecast step is attempted. -/
def dfC9 : DataFrame := { nrows := 40, returnsCol := some [], drawdownLast := none }

/-- C1: for every set of four agent results, the engine's unified risk
score is the 0.40/0.20/0.20/0.20 weighted sum of the risk-agent score and
the forecast-, sentiment- and correlation-derived scores, clamped to
[0, 100], with the derived scores given by the documented mappings. -/
theorem unified_score_weighted_sum (ar : AgentResults) :
    ARIONEngine.calculateUnifiedRiskScore ar =
      min 100 (max 0
        (ar.risk.overall_risk_score * (40/100)
          + forecastDerivedScore ar.forecast.market_sentiment * (20/100)
          + sentimentDerivedScore ar.sentiment.overall_label ar.sentiment.overall_score * (20/100)
          + correlationDerivedScore ar.correlation.risk_level * (20/100))) := by
  unfold ARIONEngine.calculateUnifiedRiskScore forecastDerivedScore
    sentimentDerivedScore correlationDerivedScore
  norm_num

/-- C3: the engine's risk level and the risk agent's per-score level are
the same deterministic step function of the score, with thresholds 20, 50
and 80 and the boundary values mapping to MEDIUM, HIGH and CRITICAL. -/
theorem risk_level_step_function (s : ℚ) :
    ARIONEngine.getRiskLevel s = riskLevelSpec s ∧
    RiskAgent.getRiskLevel s = riskLevelSpec s ∧
    riskLevelSpec 20 = "MEDIUM" ∧
    riskLevelSpec 50 = "HIGH" ∧
    riskLevelSpec 80 = "CRITICAL" := by
  refine ⟨?_, ?_, by norm_num [riskLevelSpec], by norm_num [riskLevelSpec],
    by norm_num [riskLevelSpec]⟩ <;>
  · simp only [ARIONEngine.getRiskLevel, RiskAgent.getRiskLevel, riskLevelSpec]
    split_ifs <;> first | rfl | linarith

/-- C7: for every combination of risk level, forecast market sentiment,
sentiment label and correlation risk, the advisory agent's overall
recommendation is resolved by the fixed top-to-bottom first-match-wins
decision table, with default MAINTAIN_CURRENT_STRATEGY. -/
theorem overall_recommendation_decision_table (r m s c : String) :
    AdvisoryAgent.generateOverallRecommendation r m s c =
      firstMatch "MAINTAIN_CURRENT_STRATEGY" recommendationTable (r, m, s, c) := by
  unfold AdvisoryAgent.generateOverallRecommendation recommendationTable
  simp only [firstMatch]
  split_ifs <;> simp_all

/-- C2: the engine's merged alert list is a permutation of the
concatenation of the base agents' alert lists (the forecast result has no
alerts and the advisory result is excluded), each alert stamped with its
originating agent name; its length is the sum of the base agents' alert
list lengths; it is sorted non-increasing by severity (equivalently,
non-decreasing in severity rank, unknown severities taking the last
rank); and every merged alert carries a source naming a base agent. -/
theorem all_alerts_merge_sorted (ar : AgentResults) :
    (ARIONEngine.getAllAlerts ar).Perm
      (ar.risk.alerts.map (Alert.withSource "risk")
        ++ ar.sentiment.alerts.map (Alert.withSource "sentiment")
        ++ ar.correlation.alerts.map (Alert.withSource "correlation")) ∧
    (ARIONEngine.getAllAlerts ar).length =
      ar.risk.alerts.length + ar.sentiment.alerts.length + ar.correlation.alerts.length ∧
    (ARIONEngine.getAllAlerts ar).Sorted
      (fun a b => severityRank a.severity ≤ severityRank b.severity) ∧
    ∀ a ∈ ARIONEngine.getAllAlerts ar,
      a.source = some "risk" ∨ a.source = some "sentiment" ∨ a.source = some "correlation" := by
  haveI : IsTotal Alert (fun a b => severityRank a.severity ≤ severityRank b.severity) :=
    ⟨fun a b => le_total _ _⟩
  haveI : IsTrans Alert (fun a b => severityRank a.severity ≤ severityRank b.severity) :=
    ⟨fun _ _ _ hab hbc => le_trans hab hbc⟩
  have hperm : (ARIONEngine.getAllAlerts ar).Perm
      (ar.risk.alerts.map (Alert.withSource "risk")
        ++ ar.sentiment.alerts.map (Alert.withSource "sentiment")
        ++ ar.correlation.alerts.map (Alert.withSource "correlation")) := by
    unfold ARIONEngine.getAllAlerts
    simpa using List.perm_insertionSort
      (fun (a b : Alert) => severityRank a.severity ≤ severityRank b.severity) _
  refine ⟨hperm, ?_, ?_, ?_⟩
  · have h := hperm.length_eq
    simp only [List.length_append, List.length_map] at h
    omega
  · unfold ARIONEngine.getAllAlerts
    exact List.sorted_insertionSort
      (fun (a b : Alert) => severityRank a.severity ≤ severityRank b.severity) _
  · intro a ha
    have hmem := hperm.mem_iff.mp ha
    simp only [List.mem_append, List.mem_map] at hmem
    rcases hmem with (⟨b, _, rfl⟩ | ⟨b, _, rfl⟩) | ⟨b, _, rfl⟩ <;>
      simp [Alert.withSource]

/-- C6 counterexample: with all four input confidences equal to zero
(the four agents' own empty results), the advisory confidence is the
numpy mean of an empty list — NaN, modelled `none` — and in particular it
is not the numeric value 0 that the claim promises. -/
theorem advisory_confidence_all_zero_nan :
    (AdvisoryAgent.analyze RiskAgent.emptyResult ForecastAgent.emptyResult
      SentimentAgent.emptyResult CorrelationAgent.emptyResult).confidence = none ∧
    (AdvisoryAgent.analyze RiskAgent.emptyResult ForecastAgent.emptyResult
      SentimentAgent.emptyResult CorrelationAgent.emptyResult).confidence ≠ some 0 := by
  decide

/-- C6 amended: the advisory confidence is the mean of the four input
confidences after excluding the non-positive ones; when no input
confidence is positive (in particular when all four are zero) the code
takes the mean of an empty list, which is NaN — modelled as the absence
of a numeric confidence — rather than 0. -/
theorem advisory_confidence_amended (r : RiskResult) (f : ForecastResult)
    (s : SentimentResult) (c : CorrelationResult) :
    (AdvisoryAgent.analyze r f s c).confidence =
      if ([r.confidence, f.confidence, s.confidence, c.confidence].filter (fun x => x > 0)) = []
      then none
      else some (listMean
        ([r.confidence, f.confidence, s.confidence, c.confidence].filter (fun x => x > 0))) := by
  simp only [AdvisoryAgent.analyze]
  by_cases h :
      ([r.confidence, f.confidence, s.confidence, c.confidence].filter (fun x => x > 0)) = [] <;>
    simp [h]

/-- C8 counterexample: an exception raised inside the risk agent's
`analyze` propagates straight out of `run_all_agents` — the engine body
has no handler, so the pipeline never reaches the advisory or
unified-score stage, instead of degrading that agent to its UNKNOWN/empty
sentinel. -/
theorem run_all_agents_error_propagates :
    ARIONEngine.runAllAgents
      (fun _ => Except.error "boom")
      (fun _ => Except.ok ForecastAgent.emptyResult)
      (fun _ => Except.ok SentimentAgent.emptyResult)
      (fun _ => Except.ok CorrelationAgent.emptyResult)
      [] [] = Except.error "boom" := rfl

/-- `Except.bind` on an error short-circuits. -/
theorem exceptBindError {α β : Type} (e : String) (f : α → Except String β) :
    (Except.error e >>= f) = Except.error e := rfl

/-- `Except.bind` on a success applies the continuation. -/
theorem exceptBindOk {α β : Type} (a : α) (f : α → Except String β) :
    (Except.ok a >>= f) = f a := rfl

/-- C8 amended: whenever any one of the four base agents' `analyze`
raises, `run_all_agents` itself fails with a propagated exception — the
fault is not confined, no sentinel result is substituted, and the
advisory/unified-score stage is never reached. -/
theorem run_all_agents_amended
    (fr : List (String × DataFrame) → Except String RiskResult)
    (ff : List (String × DataFrame) → Except String ForecastResult)
    (fs : List (String × List Article) → Except String SentimentResult)
    (fc : List (String × DataFrame) → Except String CorrelationResult)
    (d : List (String × DataFrame)) (n : List (String × List Article)) (e : String)
    (h : fr d = Except.error e ∨ ff d = Except.error e ∨
         fs n = Except.error e ∨ fc d = Except.error e) :
    ∃ msg, ARIONEngine.runAllAgents fr ff fs fc d n = Except.error msg := by
  unfold ARIONEngine.runAllAgents
  rcases h with h | h | h | h
  · exact ⟨e, by simp only [h, exceptBindError]⟩
  · cases hr : fr d with
    | error e1 => exact ⟨e1, by simp only [hr, exceptBindError]⟩
    | ok a => exact ⟨e, by simp only [hr, exceptBindOk, h, exceptBindError]⟩
  · cases hr : fr d with
    | error e1 => exact ⟨e1, by simp only [hr, exceptBindError]⟩
    | ok a =>
      cases hf : ff d with
      | error e2 => exact ⟨e2, by simp only [hr, exceptBindOk, hf, exceptBindError]⟩
      | ok b => exact ⟨e, by simp only [hr, hf, exceptBindOk, h, exceptBindError]⟩
  · cases hr : fr d with
    | error e1 => exact ⟨e1, by simp only [hr, exceptBindError]⟩
    | ok a =>
      cases hf : ff d with
      | error e2 => exact ⟨e2, by simp only [hr, exceptBindOk, hf, exceptBindError]⟩
      | ok b =>
        cases hs : fs n with
        | error e3 => exact ⟨e3, by simp only [hr, hf, exceptBindOk, hs, exceptBindError]⟩
        | ok c => exact ⟨e, by simp only [hr, hf, hs, exceptBindOk, h, exceptBindError]⟩

/-- C8 amended, witness: a concrete faulting risk agent makes
`run_all_agents` return a propagated error. -/
theorem run_all_agents_amended_witness :
    ∃ msg, ARIONEngine.runAllAgents
      (fun _ => Except.error "disk full")
      (fun _ => Except.ok ForecastAgent.emptyResult)
      (fun _ => Except.ok SentimentAgent.emptyResult)
      (fun _ => Except.ok CorrelationAgent.emptyResult)
      [] [] = Except.error msg :=
  run_all_agents_amended _ _ _ _ [] [] "disk full" (Or.inl rfl)

/-- C10: each base agent's `analyze`, with its `last_analysis` cache
threaded explicitly, returns the same result when called a second time on
identical input: the result is a deterministic function of the input and
never depends on the cached previous analysis.  The external numeric
suppliers (the seeded forecast model, the lexicon scorer, the correlation
and deviation routines) enter as fixed functions, reflecting their
deterministic contracts. -/
theorem analyze_idempotent
    (volFn : List ℚ → ℚ) (vt dt : ℚ) (pol : String → ℚ)
    (step : DataFrame → Except String (Option (ℚ × ℚ × String)))
    (pearson : List ℚ → List ℚ → ℚ) (thr : ℚ)
    (st1 : Option RiskResult) (st2 : Option ForecastResult)
    (st3 : Option SentimentResult) (st4 : Option CorrelationResult)
    (marketData : List (String × DataFrame)) (newsData : List (String × List Article)) :
    (RiskAgent.analyzeSt volFn vt dt
        (RiskAgent.analyzeSt volFn vt dt st1 marketData).2 marketData).1 =
      (RiskAgent.analyzeSt volFn vt dt st1 marketData).1 ∧
    (ForecastAgent.analyzeSt step
        (ForecastAgent.analyzeSt step st2 marketData).2 marketData).1 =
      (ForecastAgent.analyzeSt step st2 marketData).1 ∧
    (SentimentAgent.analyzeSt pol
        (SentimentAgent.analyzeSt pol st3 newsData).2 newsData).1 =
      (SentimentAgent.analyzeSt pol st3 newsData).1 ∧
    (CorrelationAgent.analyzeSt pearson thr
        (CorrelationAgent.analyzeSt pearson thr st4 marketData).2 marketData).1 =
      (CorrelationAgent.analyzeSt pearson thr st4 marketData).1 := by
  refine ⟨?_, ?_, ?_, ?_⟩ <;>
    simp [RiskAgent.analyzeSt, ForecastAgent.analyzeSt, SentimentAgent.analyzeSt,
      CorrelationAgent.analyzeSt, apply_ite Prod.fst]

/-- A fold over entries that all leave the accumulator unchanged is the
identity. -/
theorem foldlSkip {α β : Type} (f : β → α → β) (l : List α) (b : β)
    (h : ∀ acc, ∀ a ∈ l, f acc a = acc) : l.foldl f b = b := by
  induction l generalizing b with
  | nil => rfl
  | cons x xs ih =>
    rw [List.foldl_cons, h b x (List.mem_cons_self x xs)]
    exact ih b (fun acc a ha => h acc a (List.mem_cons_of_mem _ ha))

/-- A skipped symbol leaves the risk loop accumulator unchanged. -/
theorem riskProcessSymbolSkipped (volFn : List ℚ → ℚ) (vt dt : ℚ)
    (acc : RiskAcc) (e : String × DataFrame) (h : RiskAgent.skipped e) :
    RiskAgent.processSymbol volFn vt dt acc e = acc := by
  unfold RiskAgent.skipped at h
  by_cases hc : e.2.nrows = 0 ∨ e.2.returnsCol = none
  · simp [RiskAgent.processSymbol, hc]
  · have h5 : (tailN 20 e.2.validReturns).length < 5 := by tauto
    simp [RiskAgent.processSymbol, hc, h5]

/-- C4 counterexample: a single symbol with only 3 return observations is
skipped, so no per-symbol score exists and `overall_risk_score` is 0 —
but the result is produced by the normal path, whose step function maps
the score 0 to risk level LOW, not to the UNKNOWN of the empty-result
path that the claim asserts. -/
theorem risk_insufficient_not_unknown :
    (RiskAgent.analyze (fun _ => 0) (3/10) (-(3/20)) dataC4).overall_risk_score = 0 ∧
    (RiskAgent.analyze (fun _ => 0) (3/10) (-(3/20)) dataC4).risk_level = "LOW" ∧
    (RiskAgent.analyze (fun _ => 0) (3/10) (-(3/20)) dataC4).risk_level ≠ "UNKNOWN" ∧
    RiskAgent.analyze (fun _ => 0) (3/10) (-(3/20)) dataC4 ≠ RiskAgent.emptyResult := by
  decide

/-- C4 amended: only an empty input map reaches the empty-result path and
yields `risk_level = UNKNOWN`; a non-empty input all of whose symbols are
skipped as insufficient yields an otherwise all-zero result whose
`risk_level` is LOW (the step function applied to the zero score), with
no scores and no alerts. -/
theorem risk_insufficient_amended (volFn : List ℚ → ℚ) (vt dt : ℚ)
    (data : List (String × DataFrame)) (hne : data ≠ [])
    (hskip : ∀ e ∈ data, RiskAgent.skipped e) :
    (RiskAgent.analyze volFn vt dt data).overall_risk_score = 0 ∧
    (RiskAgent.analyze volFn vt dt data).max_risk_score = 0 ∧
    (RiskAgent.analyze volFn vt dt data).individual_scores = [] ∧
    (RiskAgent.analyze volFn vt dt data).alerts = [] ∧
    (RiskAgent.analyze volFn vt dt data).risk_level = "LOW" ∧
    RiskAgent.analyze volFn vt dt [] = RiskAgent.emptyResult := by
  have hfold : data.foldl (RiskAgent.processSymbol volFn vt dt) ⟨[], [], [], []⟩
      = ⟨[], [], [], []⟩ :=
    foldlSkip _ _ _ (fun acc a ha => riskProcessSymbolSkipped volFn vt dt acc a (hskip a ha))
  have hE : data.isEmpty = false := by
    cases data with
    | nil => exact absurd rfl hne
    | cons x xs => rfl
  unfold RiskAgent.analyze
  simp only [hE, Bool.false_eq_true, if_false, hfold]
  norm_num [RiskAgent.getRiskLevel, RiskAgent.emptyResult]

/-- C4 amended, witness: the concrete three-return scenario satisfies the
hypotheses and exhibits the LOW-not-UNKNOWN outcome. -/
theorem risk_insufficient_amended_witness :
    dataC4 ≠ [] ∧ (∀ e ∈ dataC4, RiskAgent.skipped e) ∧
    ((RiskAgent.analyze (fun _ => (0:ℚ)) (3/10) (-(3/20)) dataC4).overall_risk_score = 0 ∧
     (RiskAgent.analyze (fun _ => (0:ℚ)) (3/10) (-(3/20)) dataC4).max_risk_score = 0 ∧
     (RiskAgent.analyze (fun _ => (0:ℚ)) (3/10) (-(3/20)) dataC4).individual_scores = [] ∧
     (RiskAgent.analyze (fun _ => (0:ℚ)) (3/10) (-(3/20)) dataC4).alerts = [] ∧
     (RiskAgent.analyze (fun _ => (0:ℚ)) (3/10) (-(3/20)) dataC4).risk_level = "LOW" ∧
     RiskAgent.analyze (fun _ => (0:ℚ)) (3/10) (-(3/20)) [] = RiskAgent.emptyResult) :=
  ⟨by decide, by decide,
    risk_insufficient_amended (fun _ => 0) (3/10) (-(3/20)) dataC4 (by decide) (by decide)⟩

/-- C5 counterexample: with per-symbol scores 0.8, 0.6 and -0.1 the
overall label is POSITIVE with mean 13/30 ≈ 0.43, but a
POSITIVE_SENTIMENT alert is emitted for the second symbol (0.6 > 0.5) as
well, not only for the first as the claim asserts. -/
theorem sentiment_second_symbol_also_alerted :
    (SentimentAgent.analyze polC5 newsC5).overall_label = "POSITIVE" ∧
    (SentimentAgent.analyze polC5 newsC5).overall_score = 13/30 ∧
    (SentimentAgent.analyze polC5 newsC5).alerts.map (fun a => (a.symbol, a.atype, a.severity)) =
      [(some "S1", "POSITIVE_SENTIMENT", "LOW"), (some "S2", "POSITIVE_SENTIMENT", "LOW")] := by
  simp [SentimentAgent.analyze, newsC5, SentimentAgent.processSymbol, polC5, listMean,
    SentimentAgent.getSentimentLabel]
  norm_num

/-- C5 amended: for any polarity scorer giving the three articles the
scores 0.8, 0.6 and -0.1, the overall label is POSITIVE (mean 13/30) and
LOW-severity POSITIVE_SENTIMENT alerts are emitted for exactly the first
and second symbols (both above 0.5), and for no other symbol. -/
theorem sentiment_scenario_amended (pol : String → ℚ)
    (h1 : pol "a" = 4/5) (h2 : pol "b" = 3/5) (h3 : pol "c" = -(1/10)) :
    (SentimentAgent.analyze pol newsC5).overall_label = "POSITIVE" ∧
    (SentimentAgent.analyze pol newsC5).overall_score = 13/30 ∧
    (SentimentAgent.analyze pol newsC5).alerts.map (fun a => (a.symbol, a.atype, a.severity)) =
      [(some "S1", "POSITIVE_SENTIMENT", "LOW"), (some "S2", "POSITIVE_SENTIMENT", "LOW")] := by
  simp [SentimentAgent.analyze, newsC5, SentimentAgent.processSymbol, h1, h2, h3, listMean,
    SentimentAgent.getSentimentLabel]
  norm_num

/-- C5 amended, witness: the concrete scorer `polC5` realizes the three
scores and exhibits the two-alert outcome. -/
theorem sentiment_scenario_amended_witness :
    polC5 "a" = 4/5 ∧ polC5 "b" = 3/5 ∧ polC5 "c" = -(1/10) ∧
    ((SentimentAgent.analyze polC5 newsC5).overall_label = "POSITIVE" ∧
     (SentimentAgent.analyze polC5 newsC5).overall_score = 13/30 ∧
     (SentimentAgent.analyze polC5 newsC5).alerts.map (fun a => (a.symbol, a.atype, a.severity)) =
       [(some "S1", "POSITIVE_SENTIMENT", "LOW"), (some "S2", "POSITIVE_SENTIMENT", "LOW")]) :=
  ⟨by simp [polC5], by simp [polC5], by simp [polC5],
    sentiment_scenario_amended polC5 (by simp [polC5]) (by simp [polC5])
      (by simp [polC5])⟩

/-- C9: a symbol whose feature preparation or model fit raises is skipped
and the batch continues; the result over the remaining symbols is exactly
the result obtained without the faulting symbol. -/
theorem forecast_skip_faulting_symbol
    (step : DataFrame → Except String (Option (ℚ × ℚ × String)))
    (xs ys : List (String × DataFrame)) (sym : String) (df : DataFrame) (e : String)
    (hf : step df = Except.error e) :
    ForecastAgent.analyze step (xs ++ (sym, df) :: ys) =
      ForecastAgent.analyze step (xs ++ ys) := by
  have hskip : ∀ acc, ForecastAgent.processSymbol step acc (sym, df) = acc := by
    intro acc
    by_cases hc : df.nrows = 0 ∨ df.nrows < 30
    · simp [ForecastAgent.processSymbol, hc]
    · simp [ForecastAgent.processSymbol, hc, hf]
  have hfold : ∀ acc, (xs ++ (sym, df) :: ys).foldl (ForecastAgent.processSymbol step) acc
      = (xs ++ ys).foldl (ForecastAgent.processSymbol step) acc := by
    intro acc
    rw [List.foldl_append, List.foldl_append, List.foldl_cons, hskip]
  by_cases hE : xs ++ ys = []
  · rcases List.append_eq_nil.mp hE with ⟨rfl, rfl⟩
    unfold ForecastAgent.analyze
    simp [hskip, ForecastAgent.emptyResult]
  · have h1 : (xs ++ (sym, df) :: ys).isEmpty = false := by
      cases xs <;> rfl
    have h2 : (xs ++ ys).isEmpty = false := by
      cases hxy : xs ++ ys with
      | nil => exact absurd hxy hE
      | cons a l => rfl
    unfold ForecastAgent.analyze
    simp only [h1, h2, Bool.false_eq_true, if_false, hfold]

/-- C9 witness: with a step function that raises on every frame, the
batch over two symbols equals the batch without the faulting symbol. -/
theorem forecast_skip_faulting_symbol_witness :
    ForecastAgent.analyze (fun _ => Except.error "fit failed")
        ([] ++ ("AAPL", dfC9) :: [("MSFT", dfC9)]) =
      ForecastAgent.analyze (fun _ => Except.error "fit failed") ([] ++ [("MSFT", dfC9)]) :=
  forecast_skip_faulting_symbol _ [] [("MSFT", dfC9)] "AAPL" dfC9 "fit failed" rfl
